import Mathlib

/-!
Verification development for the signaling conductor in
`src/janus_win/conductor_ws.cpp` (class `ConductorWs`).

Modelling conventions:

* External collaborators (the WebRTC engine, the WebSocket client, the
  main window) are modelled as an effect trace: every call the conductor
  makes on a collaborator becomes an `Effect` appended to the trace, in
  program order.
* Outcomes of external calls that the conductor branches on
  (`CreatePeerConnectionFactory`, `CreatePeerConnection`,
  `OpenVideoCaptureDevice`, SDP / candidate parsing, `AddIceCandidate`,
  `IsSendingMessage`, `is_connected`, `SendToPeer`) are supplied as an
  `Env` record or as explicit boolean arguments.
* JSON is modelled at the object level (`JObj`, an association list of
  key / value pairs); the jsoncpp reader / writer string round-trip is an
  external library and is abstracted by the `Raw.json` constructor
  (`Raw.malformed` stands for a string `Json::Reader::parse` rejects).
* `RTC_DCHECK` compiles to a no-op in release builds and is modelled as
  a no-op.
* Null-pointer dereferences are modelled by `Except Crash`.
* The transaction-dispatch fragments inside `OnMessageFromPeer`
  (source lines 244-251 and 254-328) are written in Java-style pseudocode
  referencing identifiers (`jo`, `msg`, `transactions`, `handles`) that
  are not declared in the translation unit, so the file does not compile
  as C++ with them; they are embedded separately
  (`processSuccessTagged` / `processErrorTagged`) with Java library
  semantics (`Map.get` of an absent key is null, reading a field of a
  null reference faults), and the conductor functions embed the
  well-formed C++ statements of the file.
-/

/-- SDP description types accepted by `webrtc::SdpTypeFromString`. -/
inductive SdpType
  | offer
  | prAnswer
  | answer
deriving DecidableEq, Repr

/-- Mirrors `webrtc::SdpTypeToString`. -/
def sdpTypeToString : SdpType → String
  | .offer => "offer"
  | .prAnswer => "pranswer"
  | .answer => "answer"

/-- Mirrors `webrtc::SdpTypeFromString`: only offer / pranswer / answer are
known type strings. -/
def sdpTypeFromString (s : String) : Option SdpType :=
  if s = "offer" then some .offer
  else if s = "pranswer" then some .prAnswer
  else if s = "answer" then some .answer
  else none

/-- JSON scalar values as used by the wire format. -/
inductive JVal
  | jstr (s : String)
  | jint (n : Int)
  | jbool (b : Bool)
deriving DecidableEq, Repr

/-- JSON object: association list of field name / value. -/
abbrev JObj := List (String × JVal)

/-- Field lookup in a JSON object. -/
def jlookup (j : JObj) (k : String) : Option JVal :=
  (j.find? (fun p => p.1 = k)).map (·.2)

/-- String coercion of `rtc::GetStringFromJson`: strings are returned as
is, numbers and booleans are converted to their decimal / literal text. -/
def jvalToString : JVal → String
  | .jstr s => s
  | .jint n => toString n
  | .jbool b => if b then "true" else "false"

/-- Mirrors `rtc::GetStringFromJsonObject`: `none` when the field is
absent, otherwise the string coercion of its value. -/
def getStringFromJsonObject (j : JObj) (k : String) : Option String :=
  (jlookup j k).map jvalToString

/-- Mirrors `rtc::GetIntFromJsonObject`: integers are returned as is,
strings are parsed as decimal integers, booleans convert to 0 / 1. -/
def getIntFromJsonObject (j : JObj) (k : String) : Option Int :=
  match jlookup j k with
  | some (.jint n) => some n
  | some (.jstr s) => s.toInt?
  | some (.jbool b) => some (if b then 1 else 0)
  | none => none

/-- Decoded classification of an inbound JSON object, following the
dispatch of `ConductorWs::OnMessageFromPeer` (source lines 354-425). -/
inductive Decoded
  | loopbackOffer
  | desc (ty : SdpType) (sdp : String)
  | cand (sdpMid : String) (sdpMLineIndex : Int) (sdp : String)
deriving DecidableEq, Repr

/-- Decode failures of the inbound dispatch. -/
inductive DecodeErr
  | unknownType (s : String)
  | missingSdp
  | missingCandidateFields
deriving DecidableEq, Repr

/-- Decoding of an inbound JSON object, translated from
`ConductorWs::OnMessageFromPeer` lines 354-425: a present, non-empty
`type` field selects the description path (with `offer-loopback`
reserved); otherwise the three candidate fields are all required. -/
def decodeWire (j : JObj) : Except DecodeErr Decoded :=
  let type_str := (getStringFromJsonObject j "type").getD ""
  if type_str ≠ "" then
    if type_str = "offer-loopback" then .ok .loopbackOffer
    else
      match sdpTypeFromString type_str with
      | none => .error (.unknownType type_str)
      | some ty =>
        match getStringFromJsonObject j "sdp" with
        | none => .error .missingSdp
        | some sdp => .ok (.desc ty sdp)
  else
    match getStringFromJsonObject j "sdpMid",
          getIntFromJsonObject j "sdpMLineIndex",
          getStringFromJsonObject j "candidate" with
    | some mid, some ml, some sdp => .ok (.cand mid ml sdp)
    | _, _, _ => .error .missingCandidateFields

/-- Outbound wire messages the conductor serializes. -/
inductive WireMsg
  | desc (ty : SdpType) (sdp : String)
  | cand (sdpMid : String) (sdpMLineIndex : Int) (sdp : String)
deriving DecidableEq, Repr

/-- Encoding of a session description, translated from
`ConductorWs::OnSuccess` lines 640-644: the object has exactly the
fields `type` and `sdp`. -/
def writeDescription (ty : SdpType) (sdp : String) : JObj :=
  [("type", .jstr (sdpTypeToString ty)), ("sdp", .jstr sdp)]

/-- Encoding of an ICE candidate, translated from
`ConductorWs::OnIceCandidate` lines 169-179: the object has exactly the
fields `sdpMid`, `sdpMLineIndex` and `candidate`. -/
def writeCandidate (sdpMid : String) (sdpMLineIndex : Int) (sdp : String) : JObj :=
  [("sdpMid", .jstr sdpMid),
   ("sdpMLineIndex", .jint sdpMLineIndex),
   ("candidate", .jstr sdp)]

/-- Encoding of either outbound message variant. -/
def encodeMsg : WireMsg → JObj
  | .desc ty sdp => writeDescription ty sdp
  | .cand mid ml sdp => writeCandidate mid ml sdp

/-- The decoded form an outbound message should come back as. -/
def decodedOf : WireMsg → Decoded
  | .desc ty sdp => .desc ty sdp
  | .cand mid ml sdp => .cand mid ml sdp

/-- Plain serialization of a JSON object; stands for
`Json::StyledWriter::write`, used only as the payload carried by the
outbound queue. -/
def writeJson (j : JObj) : String :=
  String.intercalate ","
    (j.map (fun p => p.1 ++ ":" ++ jvalToString p.2))

/-- Calls the conductor makes on its collaborators, in program order. -/
inductive Effect
  | logInfo (s : String)
  | logWarning (s : String)
  | logError (s : String)
  | messageBox (title text : String)
  | clientConnect (a b : String)
  | clientSignOut
  | clientSendHangUp (id : Int)
  | clientSendToPeer (id : Int) (msg : String)
  | queueSendMessage (msg : String)
  | engineCreateOffer
  | engineCreateAnswer
  | engineSetLocalDescription (ty : SdpType) (sdp : String)
  | engineSetRemoteDescription (ty : SdpType) (sdp : String)
  | engineAddIceCandidate (sdpMid : String) (sdpMLineIndex : Int) (sdp : String)
  | engineAddTrack (kind : String)
  | uiStartLocalRenderer
  | uiStopLocalRenderer
  | uiStopRemoteRenderer
  | uiSwitchToPeerList
  | uiSwitchToConnectUI
  | uiSwitchToStreamingUI
deriving DecidableEq, Repr

/-- An effect that only writes to the log. -/
def Effect.isLog : Effect → Bool
  | .logInfo _ => true
  | .logWarning _ => true
  | .logError _ => true
  | _ => false

/-- An effect that is a command on the media engine. -/
def Effect.isEngineCmd : Effect → Bool
  | .engineCreateOffer => true
  | .engineCreateAnswer => true
  | .engineSetLocalDescription _ _ => true
  | .engineSetRemoteDescription _ _ => true
  | .engineAddIceCandidate _ _ _ => true
  | .engineAddTrack _ => true
  | _ => false

/-- An effect that hands a message to the transport or to the outbound
queue. -/
def Effect.isOutbound : Effect → Bool
  | .clientSendToPeer _ _ => true
  | .queueSendMessage _ => true
  | _ => false

/-- Conductor state: the member variables of `ConductorWs` (constructor,
lines 43-47, initializes `peer_id_` to -1 and `loopback_` to false).
`senders` counts the tracks attached to the current peer connection. -/
structure CState where
  peer_id : Int := -1
  loopback : Bool := false
  server : String := ""
  hasFactory : Bool := false
  hasPc : Bool := false
  senders : Nat := 0
  pending_messages : List String := []
deriving DecidableEq, Repr

/-- Mirrors `ConductorWs::connection_active`. -/
def connection_active (st : CState) : Bool := st.hasPc

/-- Outcomes of the external calls a single conductor entry point may
branch on. -/
structure Env where
  factoryOk : Bool := true
  pcOk : Bool := true
  reinitPcOk : Bool := true
  videoOk : Bool := true
  sdpParseOk : Bool := true
  candParseOk : Bool := true
  addCandOk : Bool := true
deriving DecidableEq, Repr

/-- Null-pointer dereference. -/
inductive Crash
  | nullDeref
deriving DecidableEq, Repr

/-- Mirrors `ConductorWs::DeletePeerConnection` (lines 123-130): stop
both renderers, drop the peer connection and the factory, reset
`peer_id_` to -1 and clear `loopback_`. -/
def deletePeerConnection (st : CState) : CState × List Effect :=
  ({ st with hasPc := false, hasFactory := false, peer_id := -1,
             loopback := false, senders := 0 },
   [.uiStopLocalRenderer, .uiStopRemoteRenderer])

/-- Mirrors `ConductorWs::AddTracks` (lines 504-539): skip when senders
already exist; otherwise add the audio track, then the video track and
local renderer when a capture device opens, and switch to the streaming
UI. -/
def addTracks (st : CState) (env : Env) : CState × List Effect :=
  if st.senders ≠ 0 then (st, [])
  else if env.videoOk then
    ({ st with senders := 2 },
     [.engineAddTrack "audio", .uiStartLocalRenderer, .engineAddTrack "video",
      .uiSwitchToStreamingUI])
  else
    ({ st with senders := 1 },
     [.engineAddTrack "audio", .logError "OpenVideoCaptureDevice failed",
      .uiSwitchToStreamingUI])

/-- Mirrors `ConductorWs::InitializePeerConnection` (lines 62-90).
When `CreatePeerConnection` fails the source shows a `MessageBox` and
`DeletePeerConnection` but no return, so control falls through to
`AddTracks`, which dereferences the now-null `peer_connection_`. -/
def initializePeerConnection (st : CState) (env : Env) :
    Except Crash (CState × List Effect × Bool) :=
  if ¬ env.factoryOk then
    let (st1, effs) := deletePeerConnection st
    .ok (st1,
         [.messageBox "Error" "Failed to initialize PeerConnectionFactory"] ++ effs,
         false)
  else
    let st1 := { st with hasFactory := true }
    if ¬ env.pcOk then .error .nullDeref
    else
      let st2 := { st1 with hasPc := true, senders := 0 }
      let (st3, effs) := addTracks st2 env
      .ok (st3, effs, true)

/-- Mirrors `ConductorWs::ConnectToPeer` (lines 454-472): an existing
peer connection is rejected with a message box; otherwise the engine is
initialized, the peer bound and an offer requested. -/
def connectToPeer (st : CState) (env : Env) (peer_id : Int) :
    Except Crash (CState × List Effect) :=
  if st.hasPc then
    .ok (st, [.messageBox "Error" "We only support connecting to one peer at a time"])
  else
    match initializePeerConnection st env with
    | .error c => .error c
    | .ok (st1, effs, ok) =>
      if ok then
        .ok ({ st1 with peer_id := peer_id }, effs ++ [.engineCreateOffer])
      else
        .ok (st1, effs ++ [.messageBox "Error" "Failed to initialize PeerConnection"])

/-- Mirrors `ConductorWs::ReinitializePeerConnectionForLoopback`
(lines 92-105): set `loopback_`, snapshot the senders, drop the peer
connection, recreate it without DTLS, re-add the snapshotted tracks and
request a fresh offer; the boolean reports whether the new peer
connection exists. -/
def reinitializePeerConnectionForLoopback (st : CState) (env : Env) :
    CState × List Effect × Bool :=
  let savedSenders := st.senders
  let st1 := { st with loopback := true, hasPc := false, senders := 0 }
  if env.reinitPcOk then
    ({ st1 with hasPc := true, senders := savedSenders },
     List.replicate savedSenders (Effect.engineAddTrack "saved") ++
       [.engineCreateOffer],
     true)
  else (st1, [], false)

/-- Raw inbound transport payload: either a string `Json::Reader::parse`
rejects, or the parsed JSON object. -/
inductive Raw
  | malformed (s : String)
  | json (j : JObj)
deriving Repr

/-- Dispatch of a parsed inbound message once the peer binding check has
passed, translated from `ConductorWs::OnMessageFromPeer` lines 354-425:
descriptions are applied as remote description (answering offers),
candidates are added to the engine, `offer-loopback` triggers the
loopback reinitialization with teardown and sign-out on failure, and
every decode failure only logs. -/
def dispatchPeerMessage (st : CState) (env : Env) (j : JObj) :
    CState × List Effect :=
  match decodeWire j with
  | .ok .loopbackOffer =>
    let (st1, effs, ok) := reinitializePeerConnectionForLoopback st env
    if ok then (st1, effs)
    else
      let (st2, effs2) := deletePeerConnection st1
      (st2, effs ++ [.logError "Failed to initialize our PeerConnection instance"]
              ++ effs2 ++ [.clientSignOut])
  | .ok (.desc ty sdp) =>
    if env.sdpParseOk then
      (st, [.logInfo "Received session description",
            .engineSetRemoteDescription ty sdp] ++
           (if ty = .offer then [.engineCreateAnswer] else []))
    else
      (st, [.logWarning "Cannot parse received session description message (SdpParseError)"])
  | .ok (.cand mid ml sdp) =>
    if env.candParseOk then
      (st, [.engineAddIceCandidate mid ml sdp] ++
           (if env.addCandOk then [.logInfo "Received candidate"]
            else [.logWarning "Failed to apply the received candidate"]))
    else
      (st, [.logWarning "Cannot parse received candidate message (SdpParseError)"])
  | .error (.unknownType s) => (st, [.logError ("Unknown SDP type: " ++ s)])
  | .error .missingSdp =>
    (st, [.logWarning "Cannot parse received session description message"])
  | .error .missingCandidateFields =>
    (st, [.logWarning "Cannot parse received message"])

/-- Mirrors the well-formed C++ of `ConductorWs::OnMessageFromPeer`
(lines 222-243 and 330-426): parse the JSON (warn and return on
failure), log an ack when the `type` field reads `ack`; when no peer
connection exists bind this `peer_id` and initialize the engine,
signing out on initialization failure; when one exists for a different
peer, warn and return; otherwise dispatch the message. -/
def onMessageFromPeer (st : CState) (env : Env) (peer_id : Int)
    (message : Raw) : Except Crash (CState × List Effect) :=
  match message with
  | .malformed s =>
    .ok (st, [.logInfo ("Got wsmsg:" ++ s),
              .logWarning ("Received unknown message. " ++ s)])
  | .json j =>
    let janus_str := (getStringFromJsonObject j "type").getD ""
    let effs0 : List Effect :=
      [.logInfo ("Got wsmsg:" ++ writeJson j)] ++
      (if janus_str = "ack" then [.logInfo "Got an ack on session. "] else [])
    if ¬ st.hasPc then
      let st1 := { st with peer_id := peer_id }
      match initializePeerConnection st1 env with
      | .error c => .error c
      | .ok (st2, effs1, ok) =>
        if ok then
          let (st3, effs2) := dispatchPeerMessage st2 env j
          .ok (st3, effs0 ++ effs1 ++ effs2)
        else
          .ok (st2, effs0 ++ effs1 ++
                [.logError "Failed to initialize our PeerConnection instance",
                 .clientSignOut])
    else if peer_id ≠ st.peer_id then
      .ok (st, effs0 ++
        [.logWarning "Received a message from unknown peer while already in a conversation with a different peer."])
    else
      let (st1, effs1) := dispatchPeerMessage st env j
      .ok (st1, effs0 ++ effs1)

/-- Mirrors `ConductorWs::OnSuccess` (lines 622-646): set the produced
description as local description; in loopback feed it straight back as
a remote description of type answer with the same SDP body; otherwise
serialize it and queue it for sending. -/
def onSuccess (st : CState) (ty : SdpType) (sdp : String) :
    CState × List Effect :=
  if st.loopback then
    (st, [.engineSetLocalDescription ty sdp,
          .engineSetRemoteDescription .answer sdp])
  else
    (st, [.engineSetLocalDescription ty sdp,
          .queueSendMessage (writeJson (writeDescription ty sdp))])

/-- Mirrors `ConductorWs::OnIceCandidate` (lines 159-181): in loopback
the candidate is applied to the local engine directly; otherwise it is
serialized and queued for sending (`toStringOk` is the result of
`IceCandidateInterface::ToString`). -/
def onIceCandidate (st : CState) (toStringOk : Bool) (env : Env)
    (mid : String) (ml : Int) (sdp : String) : CState × List Effect :=
  if st.loopback then
    (st, [.engineAddIceCandidate mid ml sdp] ++
         (if env.addCandOk then []
          else [.logWarning "Failed to apply the received candidate"]))
  else if ¬ toStringOk then
    (st, [.logError "Failed to serialize candidate"])
  else
    (st, [.queueSendMessage (writeJson (writeCandidate mid ml sdp))])

/-- Mirrors `ConductorWs::OnMessageSent` (lines 428-431): queue a
`SEND_MESSAGE_TO_PEER` callback with no payload so the next pending
message is processed; the processing itself is `sendMessageToPeerCb`. -/
def onMessageSent (st : CState) : CState × List Effect := (st, [])

/-- Mirrors the `SEND_MESSAGE_TO_PEER` arm of
`ConductorWs::UIThreadCallback` (lines 571-596): append the payload, if
any, to `pending_messages_`; when the queue is non-empty and the client
is not already sending, pop the head and send it, signing out of the
server when the send fails while a peer is bound; finally reset
`peer_id_` when no peer connection exists. -/
def sendMessageToPeerCb (st : CState) (data : Option String)
    (isSending connected sendOk : Bool) : CState × List Effect :=
  let stq :=
    match data with
    | some m => { st with pending_messages := st.pending_messages ++ [m] }
    | none => st
  let step : CState × List Effect :=
    if isSending then (stq, [])
    else
      match stq.pending_messages with
      | [] => (stq, [])
      | m :: rest =>
        let st1 := { stq with pending_messages := rest }
        if ¬ sendOk ∧ st1.peer_id ≠ -1 then
          (st1, [.clientSendToPeer st1.peer_id m, .logError "SendToPeer failed"] ++
                (if connected then [.clientSignOut] else []))
        else
          (st1, [.clientSendToPeer st1.peer_id m])
  if ¬ step.1.hasPc then ({ step.1 with peer_id := -1 }, step.2)
  else step

/-- Mirrors the `PEER_CONNECTION_CLOSED` arm of
`ConductorWs::UIThreadCallback` (lines 554-569). -/
def peerConnectionClosedCb (st : CState) (isWindow connected : Bool) :
    CState × List Effect :=
  let (st1, effs) := deletePeerConnection st
  let effs := [Effect.logInfo "PEER_CONNECTION_CLOSED"] ++ effs
  if isWindow then
    if connected then (st1, effs ++ [.uiSwitchToPeerList])
    else (st1, effs ++ [.uiSwitchToConnectUI])
  else
    (st1, effs ++ (if connected then [.clientSignOut] else []))

/-- Mirrors `ConductorWs::Close` (lines 57-60). -/
def close (st : CState) : CState × List Effect :=
  let (st1, effs) := deletePeerConnection st
  (st1, [.clientSignOut] ++ effs)

/-- Mirrors `ConductorWs::OnDisconnected` (lines 192-199). -/
def onDisconnected (st : CState) (isWindow : Bool) : CState × List Effect :=
  let (st1, effs) := deletePeerConnection st
  (st1, effs ++ (if isWindow then [.uiSwitchToConnectUI] else []))

/-- Mirrors `ConductorWs::DisconnectFromCurrentPeer` (lines 541-550). -/
def disconnectFromCurrentPeer (st : CState) (isWindow : Bool) :
    CState × List Effect :=
  let (st1, effs) :=
    if st.hasPc then
      let (st2, effs2) := deletePeerConnection st
      (st2, [Effect.clientSendHangUp st.peer_id] ++ effs2)
    else (st, [])
  (st1, effs ++ (if isWindow then [.uiSwitchToPeerList] else []))

/-- Mirrors `ConductorWs::StartLogin` (lines 442-447): a no-op while
connected; otherwise store the server name and connect with the literal
credentials "1234" and "1111". -/
def startLogin (st : CState) (server : String) (_port : Int)
    (connected : Bool) : CState × List Effect :=
  if connected then (st, [])
  else ({ st with server := server }, [.clientConnect "1234" "1111"])

/-- Mirrors `ConductorWs::DisconnectFromServer` (lines 449-452). -/
def disconnectFromServer (st : CState) (connected : Bool) :
    CState × List Effect :=
  (st, if connected then [.clientSignOut] else [])

/-- Transaction record of the Java-style fragment inside
`OnMessageFromPeer` (`JanusTransaction`): whether the success and error
callbacks are attached (non-null). -/
structure JanusTransaction where
  tid : String
  hasSuccessCb : Bool
  hasErrorCb : Bool
deriving DecidableEq, Repr

/-- Transaction table keyed by transaction identifier. -/
abbrev TxTable := List (String × JanusTransaction)

/-- Java `Map.get`: null (`none`) when the key is absent. -/
def txGet (m : TxTable) (k : String) : Option JanusTransaction :=
  (m.find? (fun p => p.1 = k)).map (·.2)

/-- Java `Map.remove`. -/
def txRemove (m : TxTable) (k : String) : TxTable :=
  m.filter (fun p => p.1 ≠ k)

/-- Callback invocations performed by the transaction dispatch. -/
inductive TxEffect
  | invokeSuccess (tid : String)
  | invokeError (tid : String)
deriving DecidableEq, Repr

/-- Embeds the `success` branch of the transaction dispatch
(source lines 244-251, repeated at 266-273): look the transaction up,
read its `success` field (a null-pointer dereference when the lookup
returned null), invoke the callback when attached, then remove the
entry. -/
def processSuccessTagged (transactions : TxTable) (tid : String) :
    Except Crash (TxTable × List TxEffect) :=
  match txGet transactions tid with
  | none => .error .nullDeref
  | some jt =>
    .ok (txRemove transactions tid,
         if jt.hasSuccessCb then [.invokeSuccess tid] else [])

/-- Embeds the `error` branch of the transaction dispatch
(source lines 296-304), structurally identical to the success branch
with the `error` field. -/
def processErrorTagged (transactions : TxTable) (tid : String) :
    Except Crash (TxTable × List TxEffect) :=
  match txGet transactions tid with
  | none => .error .nullDeref
  | some jt =>
    .ok (txRemove transactions tid,
         if jt.hasErrorCb then [.invokeError tid] else [])

/-- Messages handed to `PeerConnectionWsClient::SendToPeer` within an
effect trace, in order. -/
def sentMessages (effs : List Effect) : List String :=
  effs.filterMap (fun e =>
    match e with
    | .clientSendToPeer _ m => some m
    | _ => none)

/-- Outbound-queue scenario: three enqueues arriving while a send is in
flight, then three delivery-complete callbacks (each `OnMessageSent`
queues a payload-free `SEND_MESSAGE_TO_PEER` callback); returns the
final state and the messages sent to the transport, in order. -/
def fifoScenario (st0 : CState) (connected : Bool) (a b c : String) :
    CState × List String :=
  let s1 := sendMessageToPeerCb st0 (some a) true connected true
  let s2 := sendMessageToPeerCb s1.1 (some b) true connected true
  let s3 := sendMessageToPeerCb s2.1 (some c) true connected true
  let s4 := sendMessageToPeerCb s3.1 none false connected true
  let s5 := sendMessageToPeerCb s4.1 none false connected true
  let s6 := sendMessageToPeerCb s5.1 none false connected true
  (s6.1, sentMessages (s1.2 ++ s2.2 ++ s3.2 ++ s4.2 ++ s5.2 ++ s6.2))

/-- Effect trace `AddTracks` produces on a fresh peer connection. -/
def addTracksEffs (env : Env) : List Effect :=
  if env.videoOk then
    [.engineAddTrack "audio", .uiStartLocalRenderer, .engineAddTrack "video",
     .uiSwitchToStreamingUI]
  else
    [.engineAddTrack "audio", .logError "OpenVideoCaptureDevice failed",
     .uiSwitchToStreamingUI]

/-- State left behind by `DeletePeerConnection`: no active connection,
`peer_id_` reset to -1, loopback cleared, engine and factory released. -/
def tornDown (st : CState) : Prop :=
  connection_active st = false ∧ st.peer_id = -1 ∧ st.loopback = false ∧
  st.hasFactory = false

/-- The trace stops both renderers. -/
def stopsRenderers (effs : List Effect) : Prop :=
  Effect.uiStopLocalRenderer ∈ effs ∧ Effect.uiStopRemoteRenderer ∈ effs

/-- Inbound loopback marker message. -/
def loopbackJson : JObj := [("type", .jstr "offer-loopback")]

/-- Conductor state bound to peer 7 with an active engine. -/
def stBound7 : CState :=
  { peer_id := 7, hasPc := true, hasFactory := true, senders := 2 }

/-- Environment in which every external call succeeds. -/
def envDefault : Env := {}

/-- Environment in which recreating the peer connection for loopback
fails. -/
def envReinitFail : Env := { reinitPcOk := false }

/-- Conductor state right after construction (lines 43-47). -/
def stIdle : CState := {}

/-- C5: decoding the encoding of a valid session-description or
candidate message yields the same variant with the same fields, for the
exact field layouts written by the conductor. -/
theorem decode_encode_roundtrip (m : WireMsg) :
    decodeWire (encodeMsg m) = .ok (decodedOf m) := by
  cases m with
  | desc ty sdp =>
    cases ty <;>
      simp [decodeWire, encodeMsg, writeDescription, decodedOf,
        getStringFromJsonObject, jlookup, sdpTypeToString, sdpTypeFromString,
        jvalToString, List.find?]
  | cand mid ml sdp =>
    simp [decodeWire, encodeMsg, writeCandidate, decodedOf,
      getStringFromJsonObject, getIntFromJsonObject, jlookup, jvalToString,
      List.find?]

/-- C10: while disconnected, `StartLogin` stores the server string and
connects with the fixed literal credentials "1234" and "1111",
whatever the server and port arguments are; while connected it is a
no-op. -/
theorem startLogin_fixed_credentials (st : CState) (server : String) (port : Int) :
    startLogin st server port false =
      ({ st with server := server }, [.clientConnect "1234" "1111"]) ∧
    startLogin st server port true = (st, []) := by
  exact ⟨rfl, rfl⟩

/-- C4: in loopback mode, a local description reported ready is set as
local description and fed back into the same engine as a remote
description of type answer with the same SDP body, and no outbound
message is produced (the state, in particular the pending queue, is
unchanged and no enqueue or send effect occurs). -/
theorem onSuccess_loopback_feedback (st : CState) (ty : SdpType) (sdp : String)
    (hl : st.loopback = true) :
    onSuccess st ty sdp =
      (st, [.engineSetLocalDescription ty sdp,
            .engineSetRemoteDescription .answer sdp]) ∧
    (onSuccess st ty sdp).2.all (fun e => ! e.isOutbound) = true := by
  constructor
  · simp [onSuccess, hl]
  · simp [onSuccess, hl, Effect.isOutbound]

/-- Witness for C4 at a concrete loopback state and offer. -/
theorem onSuccess_loopback_feedback_witness :
    onSuccess { stBound7 with loopback := true } .offer "v=0" =
      ({ stBound7 with loopback := true },
       [.engineSetLocalDescription .offer "v=0",
        .engineSetRemoteDescription .answer "v=0"]) ∧
    (onSuccess { stBound7 with loopback := true } .offer "v=0").2.all
      (fun e => ! e.isOutbound) = true :=
  onSuccess_loopback_feedback { stBound7 with loopback := true } .offer "v=0" rfl

/-- C7: a `success` or `error` control message whose transaction
identifier is present is consumed exactly once (the entry is removed and
a second lookup misses), but one whose transaction identifier has no
entry dereferences the null lookup result and crashes instead of being
a benign no-op. -/
theorem transaction_dispatch_null_crash :
    processSuccessTagged [] "t0" = .error .nullDeref ∧
    processErrorTagged [] "t0" = .error .nullDeref ∧
    processSuccessTagged [("t1", ⟨"t1", true, false⟩)] "t1" =
      .ok ([], [.invokeSuccess "t1"]) ∧
    txGet (txRemove [("t1", (⟨"t1", true, false⟩ : JanusTransaction))] "t1") "t1" =
      none := by
  refine ⟨rfl, rfl, ?_, ?_⟩ <;>
    simp [processSuccessTagged, txGet, txRemove, List.find?]

/-- C1: an inbound message bearing a peer id different from the bound
one while a peer connection exists is dropped: the state (phase proxy,
bound peer id, pending queue) is returned unchanged and the trace holds
only log entries, among them a warning — in particular no engine
command is issued. -/
theorem wrong_peer_message_dropped (st : CState) (env : Env) (pid : Int)
    (msg : Raw) (hb : st.hasPc = true) (hp : pid ≠ st.peer_id) :
    ∃ effs, onMessageFromPeer st env pid msg = .ok (st, effs) ∧
      effs.all Effect.isLog = true ∧
      (∃ w, Effect.logWarning w ∈ effs) := by
  cases msg with
  | malformed s =>
    exact ⟨_, rfl, by simp [Effect.isLog],
      ⟨"Received unknown message. " ++ s, by simp⟩⟩
  | json j =>
    have h1 : onMessageFromPeer st env pid (.json j) =
        .ok (st,
          [Effect.logInfo ("Got wsmsg:" ++ writeJson j)] ++
          (if (getStringFromJsonObject j "type").getD "" = "ack"
           then [Effect.logInfo "Got an ack on session. "] else []) ++
          [.logWarning "Received a message from unknown peer while already in a conversation with a different peer."]) := by
      simp [onMessageFromPeer, hb, hp]
    refine ⟨_, h1, ?_,
      ⟨"Received a message from unknown peer while already in a conversation with a different peer.", ?_⟩⟩
    · split <;> simp [Effect.isLog]
    · simp

/-- Witness for C1: a message from peer 9 while bound to peer 7. -/
theorem wrong_peer_message_dropped_witness :
    ∃ effs, onMessageFromPeer stBound7 envDefault 9 (.json []) =
        .ok (stBound7, effs) ∧
      effs.all Effect.isLog = true ∧
      (∃ w, Effect.logWarning w ∈ effs) :=
  wrong_peer_message_dropped stBound7 envDefault 9 (.json []) rfl (by decide)

/-- Computation of `connectToPeer` from an unbound state when engine
initialization succeeds: the peer id is bound, tracks are added, and an
offer is requested. -/
theorem connectToPeer_fresh (st0 : CState) (env : Env) (p : Int)
    (h0 : st0.hasPc = false) (hf : env.factoryOk = true) (hpc : env.pcOk = true) :
    connectToPeer st0 env p =
      .ok ({ st0 with hasFactory := true, hasPc := true,
                      senders := (if env.videoOk then 2 else 1), peer_id := p },
           addTracksEffs env ++ [.engineCreateOffer]) := by
  by_cases hv : env.videoOk = true <;>
    simp [connectToPeer, initializePeerConnection, addTracks, addTracksEffs,
      h0, hf, hpc, hv]

/-- C2: `ConnectToPeer` while a peer connection already exists only
shows the error notification and leaves the state untouched; and after
a successful `ConnectToPeer 7` from an unbound state, an immediate
`ConnectToPeer 9` is rejected the same way, leaving the session bound
to 7. -/
theorem connectToPeer_already_in_session (st st0 : CState) (env env0 : Env)
    (p : Int) (hb : st.hasPc = true) (h0 : st0.hasPc = false)
    (hf : env0.factoryOk = true) (hpc : env0.pcOk = true) :
    connectToPeer st env p =
      .ok (st, [.messageBox "Error" "We only support connecting to one peer at a time"]) ∧
    ∃ st1 effs, connectToPeer st0 env0 7 = .ok (st1, effs) ∧
      st1.peer_id = 7 ∧ st1.hasPc = true ∧
      connectToPeer st1 env0 9 =
        .ok (st1, [.messageBox "Error" "We only support connecting to one peer at a time"]) := by
  refine ⟨by simp [connectToPeer, hb], ?_⟩
  refine ⟨_, _, connectToPeer_fresh st0 env0 7 h0 hf hpc, rfl, rfl, ?_⟩
  simp [connectToPeer]

/-- Witness for C2 from the default unbound state. -/
theorem connectToPeer_already_in_session_witness :
    connectToPeer stBound7 envDefault 9 =
      .ok (stBound7, [.messageBox "Error" "We only support connecting to one peer at a time"]) ∧
    ∃ st1 effs, connectToPeer stIdle envDefault 7 = .ok (st1, effs) ∧
      st1.peer_id = 7 ∧ st1.hasPc = true ∧
      connectToPeer st1 envDefault 9 =
        .ok (st1, [.messageBox "Error" "We only support connecting to one peer at a time"]) :=
  connectToPeer_already_in_session stBound7 stIdle envDefault envDefault 9 rfl rfl rfl rfl

/-- C6: an inbound message for the bound peer that fails to decode
(unparseable JSON, unknown description type, or missing required
fields) leaves the state exactly unchanged — so the session is not torn
down and does not move toward closing — and produces only log
entries. -/
theorem decode_failure_discarded (st : CState) (env : Env) (pid : Int)
    (msg : Raw) (hb : st.hasPc = true) (hp : pid = st.peer_id)
    (hfail : match msg with
             | .malformed _ => True
             | .json j => ∃ e, decodeWire j = .error e) :
    ∃ effs, onMessageFromPeer st env pid msg = .ok (st, effs) ∧
      effs.all Effect.isLog = true := by
  cases msg with
  | malformed s => exact ⟨_, rfl, by simp [Effect.isLog]⟩
  | json j =>
    obtain ⟨e, he⟩ := hfail
    have hd : ∃ w, dispatchPeerMessage st env j = (st, [w]) ∧ w.isLog = true := by
      cases e with
      | unknownType s =>
        exact ⟨.logError ("Unknown SDP type: " ++ s),
          by simp [dispatchPeerMessage, he], rfl⟩
      | missingSdp =>
        exact ⟨.logWarning "Cannot parse received session description message",
          by simp [dispatchPeerMessage, he], rfl⟩
      | missingCandidateFields =>
        exact ⟨.logWarning "Cannot parse received message",
          by simp [dispatchPeerMessage, he], rfl⟩
    obtain ⟨w, hw, hwl⟩ := hd
    refine ⟨[Effect.logInfo ("Got wsmsg:" ++ writeJson j)] ++
            (if (getStringFromJsonObject j "type").getD "" = "ack"
             then [Effect.logInfo "Got an ack on session. "] else []) ++ [w],
           ?_, ?_⟩
    · simp [onMessageFromPeer, hb, hp, hw]
    · have hinfo : Effect.isLog (.logInfo "Got an ack on session. ") = true := rfl
      have hmsglog : ∀ t : String, Effect.isLog (.logInfo t) = true := fun _ => rfl
      split <;>
        simp [List.all_append, List.all_cons, List.all_nil, hwl, hinfo, hmsglog]

/-- Witness for C6: an unknown description type for the bound peer. -/
theorem decode_failure_discarded_witness :
    ∃ effs, onMessageFromPeer stBound7 envDefault 7
        (.json [("type", .jstr "bogus")]) = .ok (stBound7, effs) ∧
      effs.all Effect.isLog = true :=
  decode_failure_discarded stBound7 envDefault 7 (.json [("type", .jstr "bogus")])
    rfl rfl ⟨.unknownType "bogus", rfl⟩

/-- C3: with the queue initially empty, enqueueing a, b, c while a send
is in flight and then completing delivery three times hands the
transport exactly a, b, c in that order; and a payload-free delivery
attempt while a send is in flight is a no-op that removes nothing from
the queue and sends nothing. -/
theorem outbound_queue_fifo (st0 st : CState) (connected : Bool) (a b c : String)
    (h0 : st0.pending_messages = []) (hpc : st0.hasPc = true) :
    (fifoScenario st0 connected a b c).2 = [a, b, c] ∧
    (sendMessageToPeerCb st none true connected true).1.pending_messages =
      st.pending_messages ∧
    (sendMessageToPeerCb st none true connected true).2 = [] := by
  refine ⟨?_, ?_, ?_⟩
  · simp [fifoScenario, sendMessageToPeerCb, h0, hpc, sentMessages]
  · by_cases h : st.hasPc = true <;> simp [sendMessageToPeerCb, h]
  · by_cases h : st.hasPc = true <;> simp [sendMessageToPeerCb, h]

/-- Witness for C3 from the bound state with an empty queue. -/
theorem outbound_queue_fifo_witness :
    (fifoScenario stBound7 true "A" "B" "C").2 = ["A", "B", "C"] ∧
    (sendMessageToPeerCb stBound7 none true true true).1.pending_messages =
      stBound7.pending_messages ∧
    (sendMessageToPeerCb stBound7 none true true true).2 = [] :=
  outbound_queue_fifo stBound7 stBound7 true "A" "B" "C" rfl rfl

/-- C8: a transport send failure while a peer is bound signs the
conductor out of the transport; the resulting disconnect callback tears
the session down (no active connection, peer id reset); and from that
state a later `ConnectToPeer` succeeds and binds a new peer, so the
conductor stays usable. -/
theorem send_failure_session_fatal_only (st : CState) (env : Env)
    (m : String) (q : Int)
    (hb : st.hasPc = true) (hid : st.peer_id ≠ -1)
    (hq : st.pending_messages = [])
    (hf : env.factoryOk = true) (hpc : env.pcOk = true) :
    ∃ st1 e1, sendMessageToPeerCb st (some m) false true false = (st1, e1) ∧
      Effect.clientSendToPeer st.peer_id m ∈ e1 ∧ Effect.clientSignOut ∈ e1 ∧
      ∃ st2 e2, onDisconnected st1 true = (st2, e2) ∧
        connection_active st2 = false ∧ st2.peer_id = -1 ∧
        ∃ st3 e3, connectToPeer st2 env q = .ok (st3, e3) ∧
          st3.peer_id = q ∧ connection_active st3 = true := by
  have h1 : sendMessageToPeerCb st (some m) false true false =
      ({ st with pending_messages := [] },
       [.clientSendToPeer st.peer_id m, .logError "SendToPeer failed",
        .clientSignOut]) := by
    simp [sendMessageToPeerCb, hq, hid, hb]
  refine ⟨_, _, h1, by simp, by simp, ?_⟩
  have h2 : onDisconnected { st with pending_messages := [] } true =
      ({ st with pending_messages := [], hasPc := false, hasFactory := false,
                 peer_id := -1, loopback := false, senders := 0 },
       [.uiStopLocalRenderer, .uiStopRemoteRenderer, .uiSwitchToConnectUI]) := by
    simp [onDisconnected, deletePeerConnection]
  refine ⟨_, _, h2, rfl, rfl, ?_⟩
  exact ⟨_, _, connectToPeer_fresh _ env q rfl hf hpc, rfl, rfl⟩

/-- Witness for C8 at the state bound to peer 7. -/
theorem send_failure_session_fatal_only_witness :
    ∃ st1 e1, sendMessageToPeerCb stBound7 (some "m") false true false = (st1, e1) ∧
      Effect.clientSendToPeer stBound7.peer_id "m" ∈ e1 ∧
      Effect.clientSignOut ∈ e1 ∧
      ∃ st2 e2, onDisconnected st1 true = (st2, e2) ∧
        connection_active st2 = false ∧ st2.peer_id = -1 ∧
        ∃ st3 e3, connectToPeer st2 envDefault 9 = .ok (st3, e3) ∧
          st3.peer_id = 9 ∧ connection_active st3 = true :=
  send_failure_session_fatal_only stBound7 envDefault "m" 9 rfl (by decide) rfl
    rfl rfl

/-- C9: every teardown path — explicit close, server disconnect, the
peer-connection-closed callback, disconnect-from-peer with a bound
session, and loopback reinitialization failure — leaves no active
connection, peer id -1, loopback off and the factory released, and
stops both renderers; the loopback failure path additionally signs
out. -/
theorem teardown_resets_session (st : CState) (env : Env)
    (w conn : Bool) (pid : Int)
    (hb : st.hasPc = true) (hpid : pid = st.peer_id)
    (hre : env.reinitPcOk = false) :
    (tornDown (deletePeerConnection st).1 ∧
     stopsRenderers (deletePeerConnection st).2) ∧
    (tornDown (close st).1 ∧ stopsRenderers (close st).2) ∧
    (tornDown (onDisconnected st w).1 ∧ stopsRenderers (onDisconnected st w).2) ∧
    (tornDown (peerConnectionClosedCb st w conn).1 ∧
     stopsRenderers (peerConnectionClosedCb st w conn).2) ∧
    (tornDown (disconnectFromCurrentPeer st w).1 ∧
     stopsRenderers (disconnectFromCurrentPeer st w).2) ∧
    (∃ st1 effs, onMessageFromPeer st env pid (.json loopbackJson) =
        .ok (st1, effs) ∧
      tornDown st1 ∧ stopsRenderers effs ∧ Effect.clientSignOut ∈ effs) := by
  have hmsg : onMessageFromPeer st env pid (.json loopbackJson) =
      .ok ({ st with loopback := false, hasPc := false, hasFactory := false,
                     peer_id := -1, senders := 0 },
           [.logInfo ("Got wsmsg:" ++ writeJson loopbackJson),
            .logError "Failed to initialize our PeerConnection instance",
            .uiStopLocalRenderer, .uiStopRemoteRenderer, .clientSignOut]) := by
    simp [onMessageFromPeer, loopbackJson, getStringFromJsonObject, jlookup,
      jvalToString, hb, hpid, dispatchPeerMessage, decodeWire,
      reinitializePeerConnectionForLoopback, hre, deletePeerConnection,
      List.find?]
  refine ⟨⟨?_, ?_⟩, ⟨?_, ?_⟩, ⟨?_, ?_⟩, ⟨?_, ?_⟩, ⟨?_, ?_⟩,
    ⟨_, _, hmsg, ?_, ?_, ?_⟩⟩ <;>
    simp [tornDown, stopsRenderers, connection_active, deletePeerConnection,
      close, onDisconnected, peerConnectionClosedCb, disconnectFromCurrentPeer,
      hb] <;>
    rcases w with _ | _ <;> rcases conn with _ | _ <;> simp

/-- Witness for C9 at the state bound to peer 7 with a failing loopback
reinitialization. -/
theorem teardown_resets_session_witness :
    (tornDown (deletePeerConnection stBound7).1 ∧
     stopsRenderers (deletePeerConnection stBound7).2) ∧
    (tornDown (close stBound7).1 ∧ stopsRenderers (close stBound7).2) ∧
    (tornDown (onDisconnected stBound7 true).1 ∧
     stopsRenderers (onDisconnected stBound7 true).2) ∧
    (tornDown (peerConnectionClosedCb stBound7 true true).1 ∧
     stopsRenderers (peerConnectionClosedCb stBound7 true true).2) ∧
    (tornDown (disconnectFromCurrentPeer stBound7 true).1 ∧
     stopsRenderers (disconnectFromCurrentPeer stBound7 true).2) ∧
    (∃ st1 effs, onMessageFromPeer stBound7 envReinitFail 7 (.json loopbackJson) =
        .ok (st1, effs) ∧
      tornDown st1 ∧ stopsRenderers effs ∧ Effect.clientSignOut ∈ effs) :=
  teardown_resets_session stBound7 envReinitFail true true 7 rfl rfl rfl
